import Mathlib

/-!
Shallow embedding of the agent invocation gateway of
`src/frontend/utils/mcpRouter.ts` (class `MCPRouter`), together with
theorems settling the specification claims about it.

Modelling conventions:
* JSON-like values (`Record<string, any>` payloads and response bodies)
  are modelled by the inductive type `JVal`; JS object literals become
  association lists `List (String × JVal)`.
* The router instance's mutable fields become the record `RouterState`;
  methods become functions taking and, when they mutate, returning a state.
* The outcome of one network attempt (`fetch` inside `makeRequest`,
  including the abort timer and the `response.ok` check) is an explicit
  environment parameter `NetOutcome`; the wall clock
  (`new Date().toISOString()`) and the generated request id
  (`generateRequestId`) are likewise environment inputs.
* Async methods are squashed to pure functions (the awaited artificial
  delay in `mockResponse` has no observable effect on the returned value).
* Each invocation-like function also returns the number of network
  attempts it performed, so that "no fetch is ever issued" is statable.
-/

namespace ImpactRealty

/-- JSON-like values, the shallow embedding of TypeScript `any` data
flowing through the router (payloads and response bodies). -/
inductive JVal where
  | null : JVal
  | str : String → JVal
  | num : Rat → JVal
  | bool : Bool → JVal
  | arr : List JVal → JVal
  | obj : List (String × JVal) → JVal

/-- JavaScript truthiness of a value (used by the `||` fallback in the
supervisor mock template: `payload.workflow_type || 'unknown'`). -/
def JVal.truthy : JVal → Bool
  | .null => false
  | .str s => s ≠ ""
  | .num q => q ≠ 0
  | .bool b => b
  | .arr _ => true
  | .obj _ => true

/-- JS `x || d` for an optional property access `x`: the property's value
when present and truthy, otherwise the default `d`. -/
def jsOr (v : Option JVal) (d : JVal) : JVal :=
  match v with
  | some x => if x.truthy then x else d
  | none => d

/-- `interface AgentConfig` of mcpRouter.ts. -/
structure AgentConfig where
  endpoint : String
  timeout : Nat
  retries : Nat
deriving DecidableEq, Repr

/-- `Partial<AgentConfig>`: each field optionally present.  A field set
to `none` is absent from the JS object and does not override on spread. -/
structure ConfigPatch where
  endpoint : Option String := none
  timeout : Option Nat := none
  retries : Option Nat := none
deriving DecidableEq, Repr

/-- `interface MCPResponse` of mcpRouter.ts. -/
structure MCPResponse where
  success : Bool
  data : Option JVal := none
  error : Option String := none
  executionId : Option String := none

/-- The mutable fields of the `MCPRouter` class instance. -/
structure RouterState where
  baseUrl : String
  authToken : String
  agentConfigs : List (String × AgentConfig)
  mockMode : Bool

/-- Outcome of one network attempt made through `makeRequest`: the abort
timer fired, the transport failed, or a response arrived with the given
`ok` flag, status code and JSON body. -/
inductive NetOutcome where
  | timeout : NetOutcome
  | transportError : String → NetOutcome
  | response : Bool → Nat → JVal → NetOutcome

/-- `NetOutcome`s on which the `try` block of `invokeAgent` /
`getAgentStatus` throws: anything but an `ok` response. -/
def NetOutcome.isFailure : NetOutcome → Bool
  | .response true _ _ => false
  | _ => true

/-- Environment inputs consumed by one invocation: the generated request
id, the current timestamp, and the network attempt's outcome. -/
structure Env where
  reqId : String
  now : String
  net : NetOutcome

/-- The `agentConfigs` record literal assigned in the `MCPRouter`
constructor (lines 32–63 of mcpRouter.ts). -/
def defaultAgentConfigs : List (String × AgentConfig) :=
  [ ("supervisor", { endpoint := "/api/agents/supervisor", timeout := 30000, retries := 2 }),
    ("compliance", { endpoint := "/api/agents/compliance", timeout := 60000, retries := 3 }),
    ("recruiting", { endpoint := "/api/agents/recruiting", timeout := 45000, retries := 2 }),
    ("investments", { endpoint := "/api/agents/investments", timeout := 90000, retries := 1 }),
    ("communication", { endpoint := "/api/agents/communication", timeout := 30000, retries := 2 }),
    ("analytics", { endpoint := "/api/agents/analytics", timeout := 60000, retries := 1 }) ]

/-- The router state produced by the `MCPRouter` constructor with no
`window.ENV` overrides present (the defaults branch). -/
def initialRouter : RouterState :=
  { baseUrl := "http://localhost:8000"
    authToken := "mock_token"
    agentConfigs := defaultAgentConfigs
    mockMode := true }

/-- The `mockResponses` record literal built inside `mockResponse`
(lines 383–438), with the wall clock `now` and the caller's payload as
parameters.  Numeric literals such as `12.5` are embedded as rationals. -/
def mockResponsesTable (payload : List (String × JVal)) (now : String) : List (String × JVal) :=
  [ ("supervisor", .obj
      [ ("status", .str "completed"),
        ("message", .str "Workflow executed successfully"),
        ("agents_coordinated", .arr [.str "compliance", .str "recruiting", .str "investments"]),
        ("execution_time", .str "2.3s"),
        ("workflow_type", jsOr (payload.lookup "workflow_type") (.str "unknown")),
        ("timestamp", .str now) ]),
    ("compliance", .obj
      [ ("status", .str "completed"),
        ("compliance_score", .num 94),
        ("issues_found", .num 2),
        ("recommendations", .arr [.str "Update disclosure forms", .str "Review contract terms"]),
        ("deals_reviewed", .num 15),
        ("critical_issues", .num 0),
        ("timestamp", .str now) ]),
    ("recruiting", .obj
      [ ("status", .str "completed"),
        ("candidates_processed", .num 15),
        ("qualified_candidates", .num 8),
        ("next_interviews", .num 3),
        ("outreach_sent", .num 25),
        ("response_rate", .str "32%"),
        ("timestamp", .str now) ]),
    ("investments", .obj
      [ ("status", .str "completed"),
        ("deals_analyzed", .num 5),
        ("roi_projections", .arr [.num 12.5, .num 8.3, .num 15.7, .num 22.1, .num 9.8]),
        ("risk_assessment", .str "moderate"),
        ("recommended_deals", .num 2),
        ("total_investment_value", .num 3250000),
        ("timestamp", .str now) ]),
    ("communication", .obj
      [ ("status", .str "completed"),
        ("emails_sent", .num 12),
        ("calls_scheduled", .num 5),
        ("follow_ups_created", .num 8),
        ("response_rate", .str "78%"),
        ("timestamp", .str now) ]),
    ("analytics", .obj
      [ ("status", .str "completed"),
        ("reports_generated", .num 3),
        ("insights_found", .num 7),
        ("performance_metrics", .obj
          [ ("conversion_rate", .str "15.2%"),
            ("avg_deal_size", .num 425000),
            ("time_to_close", .str "45 days") ]),
        ("timestamp", .str now) ]) ]

/-- The generic fallback object `mockResponses[agentId] || {...}` of
lines 442–447: used when `agentId` has no destination-specific template. -/
def genericMockData (agentId : String) (now : String) : JVal :=
  .obj
    [ ("status", .str "completed"),
      ("message", .str "Mock response generated"),
      ("agent_id", .str agentId),
      ("timestamp", .str now) ]

/-- `MCPRouter.mockResponse` (lines 379–450): the Synthetic Response
Generator.  The awaited random delay is dropped (no observable effect on
the returned value). -/
def mockResponse (agentId : String) (payload : List (String × JVal))
    (now reqId : String) : MCPResponse :=
  { success := true
    data := some (((mockResponsesTable payload now).lookup agentId).getD
      (genericMockData agentId now))
    executionId := some reqId }

/-- `MCPRouter.invokeAgent` (lines 69–117).  Second component: how many
network attempts were made (0 or 1; `makeRequest` is called at most once,
no retries). -/
def invokeAgent (st : RouterState) (agentId : String)
    (payload : List (String × JVal)) (env : Env) : MCPResponse × Nat :=
  if st.mockMode then
    (mockResponse agentId payload env.now env.reqId, 0)
  else
    match st.agentConfigs.lookup agentId with
    | none => ({ success := false, error := some ("Unknown agent: " ++ agentId) }, 0)
    | some _config =>
      match env.net with
      | .response true _ body =>
        ({ success := true, data := some body, executionId := some env.reqId }, 1)
      | _ => (mockResponse agentId payload env.now env.reqId, 1)

/-- The payload that `executeWorkflow` hands to `invokeAgent`
(lines 123–127). -/
def workflowPayload (workflowType : String) (params : JVal) : List (String × JVal) :=
  [ ("action", .str "execute_workflow"),
    ("workflow_type", .str workflowType),
    ("params", params) ]

/-- `MCPRouter.executeWorkflow` (lines 122–128). -/
def executeWorkflow (st : RouterState) (workflowType : String) (params : JVal)
    (env : Env) : MCPResponse × Nat :=
  invokeAgent st "supervisor" (workflowPayload workflowType params) env

/-- The `statusData` record literal of `mockAgentStatus` (lines 453–486). -/
def statusData : List (String × JVal) :=
  [ ("supervisor", .obj
      [ ("status", .str "active"),
        ("health", .str "healthy"),
        ("uptime", .str "99.8%"),
        ("last_execution", .str "2 minutes ago"),
        ("queue_size", .num 3),
        ("active_workflows", .num 2) ]),
    ("compliance", .obj
      [ ("status", .str "active"),
        ("health", .str "healthy"),
        ("uptime", .str "99.5%"),
        ("last_execution", .str "5 minutes ago"),
        ("queue_size", .num 1),
        ("compliance_checks_today", .num 127) ]),
    ("recruiting", .obj
      [ ("status", .str "active"),
        ("health", .str "healthy"),
        ("uptime", .str "99.9%"),
        ("last_execution", .str "1 minute ago"),
        ("queue_size", .num 5),
        ("candidates_processed_today", .num 42) ]),
    ("investments", .obj
      [ ("status", .str "idle"),
        ("health", .str "healthy"),
        ("uptime", .str "99.7%"),
        ("last_execution", .str "15 minutes ago"),
        ("queue_size", .num 0),
        ("deals_analyzed_today", .num 8) ]) ]

/-- The generic fallback of `mockAgentStatus` (lines 490–496): the
unknown-status payload for names with no entry in `statusData`. -/
def genericStatusData : JVal :=
  .obj
    [ ("status", .str "unknown"),
      ("health", .str "unknown"),
      ("uptime", .str "0%"),
      ("last_execution", .str "never"),
      ("queue_size", .num 0) ]

/-- `MCPRouter.mockAgentStatus` (lines 452–498). -/
def mockAgentStatus (agentId : String) : MCPResponse :=
  { success := true
    data := some ((statusData.lookup agentId).getD genericStatusData) }

/-- `MCPRouter.getAgentStatus` (lines 133–170), with network-attempt count. -/
def getAgentStatus (st : RouterState) (agentId : String) (env : Env) :
    MCPResponse × Nat :=
  if st.mockMode then
    (mockAgentStatus agentId, 0)
  else
    match st.agentConfigs.lookup agentId with
    | none => ({ success := false, error := some ("Unknown agent: " ++ agentId) }, 0)
    | some _config =>
      match env.net with
      | .response true _ body => ({ success := true, data := some body }, 1)
      | _ => (mockAgentStatus agentId, 1)

/-- `MCPRouter.healthCheck` (lines 175–185): one `getAgentStatus` per key
of `agentConfigs`, results keyed by agent id.  Each destination's network
outcome may differ, hence the per-destination environment. -/
def healthCheck (st : RouterState) (env : String → Env) :
    List (String × MCPResponse) :=
  st.agentConfigs.map (fun kv => (kv.1, (getAgentStatus st kv.1 (env kv.1)).1))

/-- JS object spread `{...old, ...patch}` on `AgentConfig`: present patch
fields override, absent ones keep the old value. -/
def mergeConfig (old : AgentConfig) (patch : ConfigPatch) : AgentConfig :=
  { endpoint := patch.endpoint.getD old.endpoint
    timeout := patch.timeout.getD old.timeout
    retries := patch.retries.getD old.retries }

/-- The effect of `this.agentConfigs[agentId] = {...old, ...config}` on a
single association-list entry: the entry for `agentId` is merged with the
patch, every other entry is untouched. -/
def updateEntry (agentId : String) (patch : ConfigPatch) (kv : String × AgentConfig) :
    String × AgentConfig :=
  if kv.1 = agentId then (kv.1, mergeConfig kv.2 patch) else kv

/-- `MCPRouter.updateAgentConfig` (lines 336–343): merges into the entry
for `agentId` when one exists; otherwise the guard fails and nothing
changes. -/
def updateAgentConfig (st : RouterState) (agentId : String) (patch : ConfigPatch) :
    RouterState :=
  if (st.agentConfigs.lookup agentId).isSome then
    { st with agentConfigs := st.agentConfigs.map (updateEntry agentId patch) }
  else st

/-- `MCPRouter.setMockMode` (lines 348–350). -/
def setMockMode (st : RouterState) (enabled : Bool) : RouterState :=
  { st with mockMode := enabled }

/-- A fixed environment used to instantiate theorems at concrete inputs:
the network attempt times out. -/
def sampleEnv : Env :=
  { reqId := "req_1", now := "2025-01-01T00:00:00.000Z", net := .timeout }

/-- `updateEntry` never changes an entry's key. -/
theorem updateEntry_fst (agentId : String) (patch : ConfigPatch)
    (kv : String × AgentConfig) : (updateEntry agentId patch kv).1 = kv.1 := by
  unfold updateEntry
  split <;> rfl

/-- `updateEntry` at its own key merges the patch in. -/
theorem updateEntry_eq_key (a : String) (patch : ConfigPatch) (c : AgentConfig) :
    updateEntry a patch (a, c) = (a, mergeConfig c patch) := by
  simp [updateEntry]

/-- `updateEntry` at a different key is the identity. -/
theorem updateEntry_ne_key (a k : String) (patch : ConfigPatch) (c : AgentConfig)
    (hk : k ≠ a) : updateEntry a patch (k, c) = (k, c) := by
  simp [updateEntry, hk]

/-- Updating the entry for `a` rewrites the value found at `a` (and only
that) through the merge. -/
theorem lookup_map_updateEntry_self (l : List (String × AgentConfig)) (a : String)
    (patch : ConfigPatch) :
    (l.map (updateEntry a patch)).lookup a = (l.lookup a).map (fun c => mergeConfig c patch) := by
  induction l with
  | nil => rfl
  | cons hd tl ih =>
    obtain ⟨k, c⟩ := hd
    by_cases hk : k = a
    · subst hk
      rw [List.map_cons, updateEntry_eq_key]
      simp [List.lookup]
    · have hak : (a == k) = false := beq_eq_false_iff_ne.mpr (Ne.symm hk)
      rw [List.map_cons, updateEntry_ne_key a k patch c hk]
      simp [List.lookup, hak, ih]

/-- Updating the entry for `a` leaves the lookup of any other key
unchanged. -/
theorem lookup_map_updateEntry_other (l : List (String × AgentConfig)) (a b : String)
    (patch : ConfigPatch) (hb : b ≠ a) :
    (l.map (updateEntry a patch)).lookup b = l.lookup b := by
  induction l with
  | nil => rfl
  | cons hd tl ih =>
    obtain ⟨k, c⟩ := hd
    by_cases hk : k = a
    · subst hk
      have hbk : (b == k) = false := beq_eq_false_iff_ne.mpr hb
      rw [List.map_cons, updateEntry_eq_key]
      simp [List.lookup, hbk, ih]
    · rw [List.map_cons, updateEntry_ne_key a k patch c hk]
      simp [List.lookup, ih]

/-- Updating one entry's value preserves the list of keys. -/
theorem map_fst_map_updateEntry (l : List (String × AgentConfig)) (a : String)
    (patch : ConfigPatch) :
    (l.map (updateEntry a patch)).map Prod.fst = l.map Prod.fst := by
  rw [List.map_map]
  exact List.map_congr_left (fun kv _ => updateEntry_fst a patch kv)

/-- Names absent from the constructed Registry are also absent from the
`statusData` table of `mockAgentStatus` (its four keys are all registered
destinations). -/
theorem statusData_lookup_none (a : String)
    (h : defaultAgentConfigs.lookup a = none) : statusData.lookup a = none := by
  simp only [defaultAgentConfigs, List.lookup] at h
  simp only [statusData, List.lookup]
  cases h1 : a == "supervisor" <;> cases h2 : a == "compliance" <;>
    cases h3 : a == "recruiting" <;> cases h4 : a == "investments" <;>
      simp_all

/-- C1 counterexample: for the destination name "nonexistent_agent",
absent from the Registry, `invokeAgent` on the constructed router (which
is in disconnected mode) returns `success = true` — disconnected mode IS
consulted before the unknown-destination check, refuting the claim that
an unknown destination fails in both modes. -/
theorem C1_counterexample :
    defaultAgentConfigs.lookup "nonexistent_agent" = none ∧
    initialRouter.mockMode = true ∧
    (invokeAgent initialRouter "nonexistent_agent" [] sampleEnv).1.success = true ∧
    (invokeAgent initialRouter "nonexistent_agent" [] sampleEnv).1.error = none :=
  ⟨rfl, rfl, rfl, rfl⟩

/-- C1 (amended): for a destination name absent from the Registry,
`invokeAgent` returns `success = false` with the unknown-destination
reason only in connected mode, without any network attempt; in
disconnected (mock) mode the mock-mode check comes first, so the call
returns the Synthetic Response Generator's output, which succeeds. -/
theorem C1_unknown_destination (st : RouterState) (agentId : String)
    (payload : List (String × JVal)) (env : Env)
    (h : st.agentConfigs.lookup agentId = none) :
    (st.mockMode = false →
      invokeAgent st agentId payload env =
        ({ success := false, error := some ("Unknown agent: " ++ agentId) }, 0)) ∧
    (st.mockMode = true →
      invokeAgent st agentId payload env = (mockResponse agentId payload env.now env.reqId, 0) ∧
      (invokeAgent st agentId payload env).1.success = true) := by
  constructor
  · intro hm
    simp [invokeAgent, hm, h]
  · intro hm
    simp [invokeAgent, hm, mockResponse]

/-- C1 witness: the amended theorem applied at the connected-mode router
and the concrete unknown name "nonexistent_agent". -/
theorem C1_unknown_destination_witness :
    invokeAgent (setMockMode initialRouter false) "nonexistent_agent" [] sampleEnv =
      ({ success := false, error := some "Unknown agent: nonexistent_agent" }, 0) :=
  (C1_unknown_destination (setMockMode initialRouter false) "nonexistent_agent" []
    sampleEnv rfl).1 rfl

/-- C2: for a registered destination in connected mode, every Request
Executor failure (timeout, transport error, or non-ok response) is caught
and the call returns the Synthetic Response Generator's output, whose
`success` field is `true` — never a failure result. -/
theorem C2_network_failure_synthesized (st : RouterState) (agentId : String)
    (payload : List (String × JVal)) (env : Env) (cfg : AgentConfig)
    (hm : st.mockMode = false)
    (hc : st.agentConfigs.lookup agentId = some cfg)
    (hf : env.net.isFailure = true) :
    invokeAgent st agentId payload env = (mockResponse agentId payload env.now env.reqId, 1) ∧
    (invokeAgent st agentId payload env).1.success = true := by
  have hnet : invokeAgent st agentId payload env =
      (mockResponse agentId payload env.now env.reqId, 1) := by
    rcases he : env.net with _ | m | ⟨ok, status, body⟩
    · simp [invokeAgent, hm, hc, he]
    · simp [invokeAgent, hm, hc, he]
    · cases ok
      · simp [invokeAgent, hm, hc, he]
      · rw [he] at hf
        simp [NetOutcome.isFailure] at hf
  exact ⟨hnet, by rw [hnet]; rfl⟩

/-- C2 witness: the theorem applied at the connected-mode router, the
registered destination "compliance", and a timed-out network attempt. -/
theorem C2_network_failure_synthesized_witness :
    invokeAgent (setMockMode initialRouter false) "compliance" [] sampleEnv =
      (mockResponse "compliance" [] sampleEnv.now sampleEnv.reqId, 1) :=
  (C2_network_failure_synthesized (setMockMode initialRouter false) "compliance" []
    sampleEnv { endpoint := "/api/agents/compliance", timeout := 60000, retries := 3 }
    rfl rfl rfl).1

/-- C3: while disconnected (mock) mode is enabled, `invokeAgent` returns
the Synthetic Response Generator's output for every destination and
payload, and performs zero network attempts. -/
theorem C3_mock_mode_no_network (st : RouterState) (agentId : String)
    (payload : List (String × JVal)) (env : Env) (hm : st.mockMode = true) :
    invokeAgent st agentId payload env =
      (mockResponse agentId payload env.now env.reqId, 0) := by
  simp [invokeAgent, hm]

/-- C3 witness: the theorem applied at the constructed (mock-mode) router
and a registered destination. -/
theorem C3_mock_mode_no_network_witness :
    invokeAgent initialRouter "investments" [] sampleEnv =
      (mockResponse "investments" [] sampleEnv.now sampleEnv.reqId, 0) :=
  C3_mock_mode_no_network initialRouter "investments" [] sampleEnv rfl

/-- C4 counterexample: calling `updateAgentConfig` with the name
"extra_agent", absent from the Registry, creates no entry — the state is
returned unchanged, refuting "creates a new entry when the name is
absent". -/
theorem C4_counterexample :
    defaultAgentConfigs.lookup "extra_agent" = none ∧
    updateAgentConfig initialRouter "extra_agent" { timeout := some 1000 } = initialRouter ∧
    (updateAgentConfig initialRouter "extra_agent"
      { timeout := some 1000 }).agentConfigs.lookup "extra_agent" = none :=
  ⟨rfl, rfl, rfl⟩

/-- C4 (amended): when the name is present, `updateAgentConfig` merges
the supplied fields into the existing entry (unmentioned fields keep
their previous values, other entries are untouched); when the name is
absent it is a complete no-op and creates no entry. -/
theorem C4_update_merges_existing (st : RouterState) (agentId : String)
    (patch : ConfigPatch) :
    (∀ cfg, st.agentConfigs.lookup agentId = some cfg →
      (updateAgentConfig st agentId patch).agentConfigs.lookup agentId =
        some (mergeConfig cfg patch) ∧
      (patch.endpoint = none → (mergeConfig cfg patch).endpoint = cfg.endpoint) ∧
      (patch.timeout = none → (mergeConfig cfg patch).timeout = cfg.timeout) ∧
      (patch.retries = none → (mergeConfig cfg patch).retries = cfg.retries) ∧
      (∀ b, b ≠ agentId →
        (updateAgentConfig st agentId patch).agentConfigs.lookup b =
          st.agentConfigs.lookup b)) ∧
    (st.agentConfigs.lookup agentId = none → updateAgentConfig st agentId patch = st) := by
  constructor
  · intro cfg hcfg
    have hsome : (st.agentConfigs.lookup agentId).isSome := by rw [hcfg]; rfl
    refine ⟨?_, ?_, ?_, ?_, ?_⟩
    · simp [updateAgentConfig, hsome, lookup_map_updateEntry_self, hcfg]
    · intro hp; simp [mergeConfig, hp]
    · intro hp; simp [mergeConfig, hp]
    · intro hp; simp [mergeConfig, hp]
    · intro b hb
      simp [updateAgentConfig, hsome, lookup_map_updateEntry_other st.agentConfigs agentId b patch hb]
  · intro hnone
    simp [updateAgentConfig, hnone]

/-- C4 witness: the amended theorem applied at the constructed router and
the registered name "compliance" with a timeout-only patch: the timeout
is overridden while endpoint and retry count keep their prior values. -/
theorem C4_update_merges_existing_witness :
    (updateAgentConfig initialRouter "compliance"
      { timeout := some 1234 }).agentConfigs.lookup "compliance" =
      some { endpoint := "/api/agents/compliance", timeout := 1234, retries := 3 } :=
  ((C4_update_merges_existing initialRouter "compliance" { timeout := some 1234 }).1
    { endpoint := "/api/agents/compliance", timeout := 60000, retries := 3 } rfl).1

/-- C5 counterexample: the six registered timeout values are not pairwise
distinct — "supervisor" and "communication" both carry 30000 ms (and
"compliance" and "analytics" both carry 60000 ms). -/
theorem C5_counterexample :
    (defaultAgentConfigs.lookup "supervisor").map AgentConfig.timeout = some 30000 ∧
    (defaultAgentConfigs.lookup "communication").map AgentConfig.timeout = some 30000 ∧
    (defaultAgentConfigs.lookup "compliance").map AgentConfig.timeout = some 60000 ∧
    (defaultAgentConfigs.lookup "analytics").map AgentConfig.timeout = some 60000 ∧
    ¬ (defaultAgentConfigs.map (fun kv => kv.2.timeout)).Nodup := by
  refine ⟨rfl, rfl, rfl, rfl, by decide⟩

/-- C5 (amended): the static table registers exactly the six destinations
supervisor, compliance, recruiting, investments, communication, analytics
with timeouts 30000, 60000, 45000, 90000, 30000, 60000 ms; every timeout
lies between 30s and 90s, investments holds the strictly longest (90s)
and communication holds a minimal timeout (30s) — but the six values are
not pairwise distinct (30s and 60s each occur twice). -/
theorem C5_destination_table :
    defaultAgentConfigs.map Prod.fst =
      ["supervisor", "compliance", "recruiting", "investments", "communication", "analytics"] ∧
    defaultAgentConfigs.map (fun kv => kv.2.timeout) =
      [30000, 60000, 45000, 90000, 30000, 60000] ∧
    defaultAgentConfigs.all (fun kv => 30000 ≤ kv.2.timeout && kv.2.timeout ≤ 90000) = true ∧
    defaultAgentConfigs.all (fun kv => kv.1 == "investments" || kv.2.timeout < 90000) = true ∧
    (defaultAgentConfigs.lookup "investments").map AgentConfig.timeout = some 90000 ∧
    (defaultAgentConfigs.lookup "communication").map AgentConfig.timeout = some 30000 ∧
    ¬ (defaultAgentConfigs.map (fun kv => kv.2.timeout)).Nodup := by
  refine ⟨rfl, rfl, by decide, by decide, rfl, rfl, by decide⟩

/-- C6: `healthCheck` returns one entry per Registry entry, in Registry
order, for any router state (any registry contents, including the empty
one, and either mode) and any per-destination network outcomes; its key
list equals the Registry's key list, so it has duplicates or omissions
exactly when the Registry itself does. -/
theorem C6_healthCheck_keys (st : RouterState) (env : String → Env) :
    (healthCheck st env).map Prod.fst = st.agentConfigs.map Prod.fst ∧
    (((healthCheck st env).map Prod.fst).Nodup ↔ (st.agentConfigs.map Prod.fst).Nodup) := by
  have h : (healthCheck st env).map Prod.fst = st.agentConfigs.map Prod.fst := by
    unfold healthCheck
    rw [List.map_map]
    rfl
  exact ⟨h, by rw [h]⟩

/-- C7: `executeWorkflow` is exactly `invokeAgent` on destination
"supervisor" with the action/workflow-name/params payload — the same
result in every state and environment, not a separate code path. -/
theorem C7_executeWorkflow_is_sugar (st : RouterState) (workflowType : String)
    (params : JVal) (env : Env) :
    executeWorkflow st workflowType params env =
      invokeAgent st "supervisor" (workflowPayload workflowType params) env ∧
    (workflowPayload workflowType params).lookup "action" =
      some (.str "execute_workflow") ∧
    (workflowPayload workflowType params).lookup "workflow_type" =
      some (.str workflowType) ∧
    (workflowPayload workflowType params).lookup "params" = some params :=
  ⟨rfl, rfl, rfl, rfl⟩

/-- C8: the Synthetic Response Generator never fails — for every
destination name, payload, timestamp and request id it returns
`success = true` with data present and no error field; a name with no
destination-specific template receives the minimal generic success
payload instead of an error. -/
theorem C8_generator_never_fails (agentId : String) (payload : List (String × JVal))
    (now reqId : String) :
    (mockResponse agentId payload now reqId).success = true ∧
    (mockResponse agentId payload now reqId).data.isSome = true ∧
    (mockResponse agentId payload now reqId).error = none ∧
    ((mockResponsesTable payload now).lookup agentId = none →
      (mockResponse agentId payload now reqId).data =
        some (genericMockData agentId now)) := by
  refine ⟨rfl, rfl, rfl, fun h => ?_⟩
  simp [mockResponse, h]

/-- C8 witness: the theorem applied at the unrecognized name "zzz_agent",
whose absence from the template table is discharged by evaluation. -/
theorem C8_generator_never_fails_witness :
    (mockResponse "zzz_agent" [] "2025-01-01T00:00:00.000Z" "req_1").data =
      some (genericMockData "zzz_agent" "2025-01-01T00:00:00.000Z") :=
  (C8_generator_never_fails "zzz_agent" [] "2025-01-01T00:00:00.000Z" "req_1").2.2.2 rfl

/-- C9: the Registry's key list is invariant — the constructor fixes it
to the six built-in names, `updateAgentConfig` preserves the key list for
every input (and is a complete no-op for an absent name), and
`setMockMode` does not touch the Registry at all. -/
theorem C9_registry_keys_invariant (st : RouterState) (agentId : String)
    (patch : ConfigPatch) (enabled : Bool) :
    (updateAgentConfig st agentId patch).agentConfigs.map Prod.fst =
      st.agentConfigs.map Prod.fst ∧
    (st.agentConfigs.lookup agentId = none → updateAgentConfig st agentId patch = st) ∧
    (setMockMode st enabled).agentConfigs = st.agentConfigs ∧
    initialRouter.agentConfigs.map Prod.fst =
      ["supervisor", "compliance", "recruiting", "investments", "communication", "analytics"] := by
  refine ⟨?_, ?_, rfl, rfl⟩
  · unfold updateAgentConfig
    split
    · exact map_fst_map_updateEntry st.agentConfigs agentId patch
    · rfl
  · intro hnone
    simp [updateAgentConfig, hnone]

/-- C9 witness: the theorem applied at the constructed router with the
absent name "extra_agent" — the update is a no-op. -/
theorem C9_registry_keys_invariant_witness :
    updateAgentConfig initialRouter "extra_agent" { retries := some 7 } = initialRouter :=
  (C9_registry_keys_invariant initialRouter "extra_agent" { retries := some 7 } true).2.1 rfl

/-- C10: in disconnected (mock) mode `getAgentStatus` answers
`success = true` for every agent name with zero network attempts; names
outside the `statusData` table — in particular every name not registered
in the constructed Registry — receive the generic unknown-status payload;
the unknown-destination failure is produced only in connected mode. -/
theorem C10_mock_status_always_succeeds (st : RouterState) (agentId : String)
    (env : Env) :
    (st.mockMode = true →
      getAgentStatus st agentId env = (mockAgentStatus agentId, 0) ∧
      (getAgentStatus st agentId env).1.success = true ∧
      (statusData.lookup agentId = none →
        (getAgentStatus st agentId env).1.data = some genericStatusData)) ∧
    (defaultAgentConfigs.lookup agentId = none → statusData.lookup agentId = none) ∧
    (st.mockMode = false → st.agentConfigs.lookup agentId = none →
      getAgentStatus st agentId env =
        ({ success := false, error := some ("Unknown agent: " ++ agentId) }, 0)) := by
  refine ⟨fun hm => ?_, statusData_lookup_none agentId, fun hm hnone => ?_⟩
  · refine ⟨by simp [getAgentStatus, hm], by simp [getAgentStatus, hm, mockAgentStatus], fun h => ?_⟩
    simp [getAgentStatus, hm, mockAgentStatus, h]
  · simp [getAgentStatus, hm, hnone]

/-- C10 witness: the theorem applied at the constructed (mock-mode)
router and the unregistered name "zzz_agent", which receives the generic
unknown-status payload with `success = true`. -/
theorem C10_mock_status_always_succeeds_witness :
    (getAgentStatus initialRouter "zzz_agent" sampleEnv).1.data = some genericStatusData :=
  ((C10_mock_status_always_succeeds initialRouter "zzz_agent" sampleEnv).1 rfl).2.2
    ((C10_mock_status_always_succeeds initialRouter "zzz_agent" sampleEnv).2.1 rfl)

end ImpactRealty
